import Mathlib

/-!
Verification development for the xviz trajectory helper
(`modules/builder/src/builders/helpers/xviz-trajectory-helper.js`).

The JS source is embedded shallowly over exact real arithmetic:

* JS numbers become `ℝ`; a JS field access with `|| 0` defaulting becomes an
  `Option ℝ` field read with `Option.getD 0`.
* Fallible JS code (a property access on `undefined` throws a `TypeError`)
  becomes `Option`-valued Lean code, with `none` modelling the thrown fault.
* The external geodesy library calls (`turf.distance`, `turf.bearing`,
  `addMetersToLngLat` from viewport-mercator-project) are not part of this
  repository; they are abstracted as a `GeoPrimitives` parameter.  A concrete
  instance `GturfModel`, modelled from the spec's numeric contract
  (haversine great-circle distance plus forward-azimuth initial bearing), is
  used to evaluate concrete scenarios.
* The external rigid-transform library (math.gl `Pose` / `Matrix4`) is
  modelled from the spec's RigidPose contract: the pose transformation matrix
  is the yaw-pitch-roll rotation followed by translation, `invert` is the
  general matrix inverse (restricted to affine matrices, the only ones the
  helper builds), and `Matrix4.transformVector` applies the matrix to a
  3-vector as a point (homogeneous `w = 1`), which is the behaviour the
  helper relies on for its translational parts to act at all.
-/

namespace XvizTrajectory

open Real

noncomputable section

/-- A 3-vector of reals; models both JS `[x, y, z]` arrays and `{x, y, z}`
vector objects (including `[longitude, latitude, altitude]` coordinate
triples, stored as `x`, `y`, `z`). -/
@[ext] structure Vec3 where
  x : ℝ
  y : ℝ
  z : ℝ

/-- Componentwise vector addition. -/
def vadd (a b : Vec3) : Vec3 := ⟨a.x + b.x, a.y + b.y, a.z + b.z⟩

/-- Componentwise vector negation. -/
def vneg (a : Vec3) : Vec3 := ⟨-a.x, -a.y, -a.z⟩

/-- A 3×3 real matrix, row major. -/
@[ext] structure Mat3 where
  a00 : ℝ
  a01 : ℝ
  a02 : ℝ
  a10 : ℝ
  a11 : ℝ
  a12 : ℝ
  a20 : ℝ
  a21 : ℝ
  a22 : ℝ

/-- The identity 3×3 matrix. -/
def id3 : Mat3 := ⟨1, 0, 0, 0, 1, 0, 0, 0, 1⟩

/-- Matrix product. -/
def mat3Mul (M N : Mat3) : Mat3 :=
  ⟨M.a00 * N.a00 + M.a01 * N.a10 + M.a02 * N.a20,
   M.a00 * N.a01 + M.a01 * N.a11 + M.a02 * N.a21,
   M.a00 * N.a02 + M.a01 * N.a12 + M.a02 * N.a22,
   M.a10 * N.a00 + M.a11 * N.a10 + M.a12 * N.a20,
   M.a10 * N.a01 + M.a11 * N.a11 + M.a12 * N.a21,
   M.a10 * N.a02 + M.a11 * N.a12 + M.a12 * N.a22,
   M.a20 * N.a00 + M.a21 * N.a10 + M.a22 * N.a20,
   M.a20 * N.a01 + M.a21 * N.a11 + M.a22 * N.a21,
   M.a20 * N.a02 + M.a21 * N.a12 + M.a22 * N.a22⟩

/-- Matrix applied to a vector. -/
def mat3Apply (M : Mat3) (v : Vec3) : Vec3 :=
  ⟨M.a00 * v.x + M.a01 * v.y + M.a02 * v.z,
   M.a10 * v.x + M.a11 * v.y + M.a12 * v.z,
   M.a20 * v.x + M.a21 * v.y + M.a22 * v.z⟩

/-- Determinant of a 3×3 matrix. -/
def det3 (M : Mat3) : ℝ :=
  M.a00 * (M.a11 * M.a22 - M.a12 * M.a21)
    - M.a01 * (M.a10 * M.a22 - M.a12 * M.a20)
    + M.a02 * (M.a10 * M.a21 - M.a11 * M.a20)

/-- General 3×3 matrix inverse (adjugate over determinant), the restriction of
math.gl's general `Matrix4.invert` to the rotation block.  (For a singular
matrix real division by zero yields junk entries, exactly as the floating
point library produces junk; the helper only ever inverts rotations, whose
determinant is 1.) -/
def mat3Inv (M : Mat3) : Mat3 :=
  ⟨(M.a11 * M.a22 - M.a12 * M.a21) / det3 M,
   (M.a02 * M.a21 - M.a01 * M.a22) / det3 M,
   (M.a01 * M.a12 - M.a02 * M.a11) / det3 M,
   (M.a12 * M.a20 - M.a10 * M.a22) / det3 M,
   (M.a00 * M.a22 - M.a02 * M.a20) / det3 M,
   (M.a02 * M.a10 - M.a00 * M.a12) / det3 M,
   (M.a10 * M.a21 - M.a11 * M.a20) / det3 M,
   (M.a01 * M.a20 - M.a00 * M.a21) / det3 M,
   (M.a00 * M.a11 - M.a01 * M.a10) / det3 M⟩

/-- An affine rigid transform: math.gl `Matrix4` restricted to matrices with
last homogeneous row `(0, 0, 0, 1)`, the only shape the helper constructs
(pose matrices, their inverses and their products stay in this shape). -/
@[ext] structure Mat4 where
  linear : Mat3
  translation : Vec3

/-- Product of two affine matrices (`Matrix4` multiplication). -/
def mat4Mul (M N : Mat4) : Mat4 :=
  ⟨mat3Mul M.linear N.linear, vadd (mat3Apply M.linear N.translation) M.translation⟩

/-- math.gl `Matrix4.invert` on an affine matrix. -/
def mat4Invert (M : Mat4) : Mat4 :=
  ⟨mat3Inv M.linear, vneg (mat3Apply (mat3Inv M.linear) M.translation)⟩

/-- math.gl `Matrix4.transformVector` on a 3-element vector: the vector is
transformed as a point with homogeneous coordinate `w = 1` (gl-matrix
`vec3.transformMat4`), so the translational part applies. -/
def transformVector (M : Mat4) (v : Vec3) : Vec3 :=
  vadd (mat3Apply M.linear v) M.translation

/-- Elementary rotation about the z axis by `w` (yaw). -/
def rotZ (w : ℝ) : Mat3 :=
  ⟨Real.cos w, -Real.sin w, 0, Real.sin w, Real.cos w, 0, 0, 0, 1⟩

/-- Elementary rotation about the y axis by `p` (pitch). -/
def rotY (p : ℝ) : Mat3 :=
  ⟨Real.cos p, 0, Real.sin p, 0, 1, 0, -Real.sin p, 0, Real.cos p⟩

/-- Elementary rotation about the x axis by `r` (roll). -/
def rotX (r : ℝ) : Mat3 :=
  ⟨1, 0, 0, 0, Real.cos r, -Real.sin r, 0, Real.sin r, Real.cos r⟩

/-- Modelled from the spec: the rotation block of math.gl
`Pose.getTransformationMatrix` — rotation by roll, pitch, yaw in the
z-y-x (yaw·pitch·roll) convention.  The entries are written out exactly as
the library builds them. -/
def rotZYX (roll pitch yaw : ℝ) : Mat3 :=
  ⟨Real.cos yaw * Real.cos pitch,
   -Real.sin yaw * Real.cos roll + Real.cos yaw * Real.sin pitch * Real.sin roll,
   Real.sin yaw * Real.sin roll + Real.cos yaw * Real.sin pitch * Real.cos roll,
   Real.sin yaw * Real.cos pitch,
   Real.cos yaw * Real.cos roll + Real.sin yaw * Real.sin pitch * Real.sin roll,
   -Real.cos yaw * Real.sin roll + Real.sin yaw * Real.sin pitch * Real.cos roll,
   -Real.sin pitch,
   Real.cos pitch * Real.sin roll,
   Real.cos pitch * Real.cos roll⟩

/-- Modelled from the spec: math.gl `Pose.getTransformationMatrix` — the
matrix mapping a point in the pose's local frame to world coordinates:
rotation by `(roll, pitch, yaw)` composed with translation by `(x, y, z)`. -/
def poseTransformationMatrix (x y z roll pitch yaw : ℝ) : Mat4 :=
  ⟨rotZYX roll pitch yaw, ⟨x, y, z⟩⟩

/-- Modelled from the spec: math.gl `Pose.getTransformationMatrixFromPose`
with the flip documented in the source comment (math.gl issue 33).  Given the
transformation matrices `p` of the receiver pose and `q` of the argument
pose, it composes so that the result, applied to a point in the receiver's
frame, yields that point's coordinates in the argument pose's frame:
`(q matrix)⁻¹ · (p matrix)`. -/
def getTransformationMatrixFromPose (p q : Mat4) : Mat4 :=
  mat4Mul (mat4Invert q) p

/-- A pose record as consumed by the helper:
`{x, y, z, longitude, latitude, altitude, roll, pitch, yaw}`.  The position
and anchor fields may be absent in JS (they default to 0 at every use site),
hence `Option`. -/
structure PoseRec where
  x : Option ℝ
  y : Option ℝ
  z : Option ℝ
  longitude : Option ℝ
  latitude : Option ℝ
  altitude : Option ℝ
  roll : ℝ
  pitch : ℝ
  yaw : ℝ

/-- An entry of the `poses` / `poseFrames` arrays: `{pose: {...}}`. -/
structure PoseFrame where
  pose : PoseRec

/-- An object record `{id, x, y, z, firstFrame, lastFrame}`; also the shape
of the `targetObject` argument. -/
structure ObjectRecord where
  id : Nat
  x : ℝ
  y : ℝ
  z : ℝ
  firstFrame : Nat
  lastFrame : Nat

/-- `new Pose(poseRec).getTransformationMatrix()`: the math.gl `Pose`
constructor defaults missing numeric fields to 0. -/
def poseMatOfRec (p : PoseRec) : Mat4 :=
  poseTransformationMatrix (p.x.getD 0) (p.y.getD 0) (p.z.getD 0) p.roll p.pitch p.yaw

/-- The external geodesy primitives the helper imports.  Their internals are
not part of this repository; the trajectory functions are parametric in
them. -/
structure GeoPrimitives where
  addMetersToLngLat : Vec3 → Vec3 → Vec3
  distanceMeters : Vec3 → Vec3 → ℝ
  bearingDeg : Vec3 → Vec3 → ℝ

/-- turf's `degreesToRadians` (modelled without turf's `% 360` reduction,
which is invisible to the `sin`/`cos` consumers in this file). -/
def degreesToRadians (d : ℝ) : ℝ := d * π / 180

/-- turf's `radiansToDegrees`. -/
def radiansToDegrees (r : ℝ) : ℝ := r * 180 / π

/-- JS `Math.atan2` over exact reals. -/
def atan2 (y x : ℝ) : ℝ :=
  if 0 < x then Real.arctan (y / x)
  else if x < 0 then
    (if 0 ≤ y then Real.arctan (y / x) + π else Real.arctan (y / x) - π)
  else if 0 < y then π / 2
  else if y < 0 then -(π / 2)
  else 0

/-- `getGeospatialVector(from, to)` from the source: meter vector in the
world (east/north/up) frame between two records carrying geodetic anchors
and meter offsets, each field defaulting to 0 when absent. -/
def getGeospatialVector (G : GeoPrimitives) (fr toP : PoseRec) : Vec3 :=
  let fromCoord := G.addMetersToLngLat
    ⟨fr.longitude.getD 0, fr.latitude.getD 0, fr.altitude.getD 0⟩
    ⟨fr.x.getD 0, fr.y.getD 0, fr.z.getD 0⟩
  let toCoord := G.addMetersToLngLat
    ⟨toP.longitude.getD 0, toP.latitude.getD 0, toP.altitude.getD 0⟩
    ⟨toP.x.getD 0, toP.y.getD 0, toP.z.getD 0⟩
  let distInMeters := G.distanceMeters fromCoord toCoord
  let bearingInRadians := degreesToRadians (G.bearingDeg fromCoord toCoord)
  let diffZ := toCoord.z - fromCoord.z
  ⟨distInMeters * Real.sin bearingInRadians,
   distInMeters * Real.cos bearingInRadians,
   diffZ⟩

/-- `getGeospatialToPoseTransform(from, to)` from the source: builds a
zero-position pose from `from`'s orientation and a pose at the geospatial
offset with `to`'s orientation, and composes their matrices via
`getTransformationMatrixFromPose`. -/
def getGeospatialToPoseTransform (G : GeoPrimitives) (fr toP : PoseRec) : Mat4 :=
  let offset := getGeospatialVector G fr toP
  let fromPose := poseTransformationMatrix 0 0 0 fr.roll fr.pitch fr.yaw
  let toPose := poseTransformationMatrix offset.x offset.y offset.z toP.roll toP.pitch toP.yaw
  getTransformationMatrixFromPose fromPose toPose

/-- The `objectFrames` argument: either a JS `Map` keyed by frame number
(modelled as an association list) or a positionally indexed array. -/
inductive FramesStore where
  | map (entries : List (Nat × List ObjectRecord))
  | arr (frames : List (List ObjectRecord))

/-- `getFrameObjects(frames, frameNumber)` from the source: `Map.get` in the
associative case, array indexing in the sequential case; an absent entry is
JS `undefined`, modelled as `none`. -/
def getFrameObjects : FramesStore → Nat → Option (List ObjectRecord)
  | .map m, n => m.lookup n
  | .arr l, n => l[n]?

/-- Runs an effectful step over a list, collecting the results; `none`
anywhere makes the whole loop fault.  This is the shape of the source's
`for`-loops that `push` one result per iteration and can throw. -/
def collectM {α β : Type} (f : α → Option β) : List α → Option (List β)
  | [] => some []
  | a :: as =>
    match f a, collectM f as with
    | some b, some bs => some (b :: bs)
    | _, _ => none

/-- `getObjectMotions(targetObject, objectFrames, startFrame, endFrame)` from
the source: clips the range to the object's lifetime and, for each frame in
the clipped range, looks up the frame's object list and finds the record
with the target's id.  A missing frame or a missing record faults (in JS the
missing record is pushed as `undefined` and faults at the `step.x` access in
the caller's loop; either way the call never returns a trajectory). -/
def getObjectMotions (targetObject : ObjectRecord) (objectFrames : FramesStore)
    (startFrame endFrame : Nat) : Option (List ObjectRecord) :=
  let s := max targetObject.firstFrame startFrame
  let e := min targetObject.lastFrame endFrame
  collectM
    (fun i => (getFrameObjects objectFrames i).bind
      (fun objs => objs.find? (fun o => o.id == targetObject.id)))
    (List.range' s (e - s))

/-- `getPoseTrajectory({poses, startFrame, endFrame})` from the source. -/
def getPoseTrajectory (G : GeoPrimitives) (poses : List PoseFrame)
    (startFrame endFrame : Nat) : Option (List Vec3) :=
  let iterationLimit := min endFrame poses.length
  match collectM (fun i => (poses[i]?).map PoseFrame.pose)
      (List.range' startFrame (iterationLimit - startFrame)),
      poses[startFrame]? with
  | some positions, some startFrameEntry =>
    let startPose := startFrameEntry.pose
    let transformMatrix := mat4Invert (poseMatOfRec startPose)
    some (positions.map (fun currPose =>
      transformVector transformMatrix (getGeospatialVector G startPose currPose)))
  | _, _ => none

/-- The `for`-loop of `getObjectTrajectory`: step `i` reads
`poseFrames[startFrame + i].pose`, builds the transform from that pose to the
start pose, and applies it to the step's `(x, y, z)` offset. -/
def objTrajLoop (G : GeoPrimitives) (startVehiclePose : PoseRec)
    (poseFrames : List PoseFrame) (startFrame : Nat) :
    Nat → List ObjectRecord → Option (List Vec3)
  | _, [] => some []
  | i, step :: rest =>
    match poseFrames[startFrame + i]? with
    | none => none
    | some pf =>
      let transformMatrix := getGeospatialToPoseTransform G pf.pose startVehiclePose
      let p := transformVector transformMatrix ⟨step.x, step.y, step.z⟩
      match objTrajLoop G startVehiclePose poseFrames startFrame (i + 1) rest with
      | none => none
      | some ps => some (p :: ps)

/-- `getObjectTrajectory({targetObject, objectFrames, poseFrames, startFrame,
endFrame})` from the source. -/
def getObjectTrajectory (G : GeoPrimitives) (targetObject : ObjectRecord)
    (objectFrames : FramesStore) (poseFrames : List PoseFrame)
    (startFrame endFrame : Nat) : Option (List Vec3) :=
  match poseFrames[startFrame]? with
  | none => none
  | some startEntry =>
    let startVehiclePose := startEntry.pose
    let limit := min endFrame targetObject.lastFrame
    match getObjectMotions targetObject objectFrames startFrame limit with
    | none => none
    | some motions => objTrajLoop G startVehiclePose poseFrames startFrame 0 motions

/-- Earth radius used by turf (meters). -/
def earthRadiusMeters : ℝ := 6371008.8

/-- Modelled from the spec: `turf.distance` with meter units — haversine
great-circle distance, exactly turf's formula
`2 · atan2(√a, √(1-a))` scaled by the earth radius. -/
def haversineDistance (c1 c2 : Vec3) : ℝ :=
  let dLat := degreesToRadians (c2.y - c1.y)
  let dLon := degreesToRadians (c2.x - c1.x)
  let lat1 := degreesToRadians c1.y
  let lat2 := degreesToRadians c2.y
  let a := Real.sin (dLat / 2) ^ 2 +
    Real.sin (dLon / 2) ^ 2 * Real.cos lat1 * Real.cos lat2
  earthRadiusMeters * (2 * atan2 (Real.sqrt a) (Real.sqrt (1 - a)))

/-- Modelled from the spec: `turf.bearing` — the initial great-circle bearing
(forward azimuth) in degrees clockwise from north, exactly turf's formula. -/
def forwardAzimuthDeg (c1 c2 : Vec3) : ℝ :=
  let lon1 := degreesToRadians c1.x
  let lon2 := degreesToRadians c2.x
  let lat1 := degreesToRadians c1.y
  let lat2 := degreesToRadians c2.y
  let a := Real.sin (lon2 - lon1) * Real.cos lat2
  let b := Real.cos lat1 * Real.sin lat2 -
    Real.sin lat1 * Real.cos lat2 * Real.cos (lon2 - lon1)
  radiansToDegrees (atan2 a b)

/-- Linear meters-per-degree scale used by the modelled
`addMetersToLngLat`. -/
def metersPerDegree : ℝ := 111320

/-- Modelled from the spec: `addMetersToLngLat` — "compute absolute geodetic
coordinates by adding the local meter offset (x, y, z) to the anchor
(longitude, latitude, altitude) using a geodetic-offset primitive".  The
altitude handling (`z0 + z`) is the library's exactly; the horizontal
conversion uses a linear meters-to-degrees scale.  Every concrete scenario
evaluated in this development has a zero meter offset, where any such
primitive (including the library's web-mercator one) is exactly the identity
on the anchor. -/
def addMetersLinear (c o : Vec3) : Vec3 :=
  ⟨c.x + o.x / (metersPerDegree * Real.cos (degreesToRadians c.y)),
   c.y + o.y / metersPerDegree,
   c.z + o.z⟩

/-- The concrete geodesy instance modelling the libraries the source
imports. -/
def GturfModel : GeoPrimitives :=
  ⟨addMetersLinear, haversineDistance, forwardAzimuthDeg⟩

/-- The spec's GeodesicDisplacement contract, written from its words: add
each record's meter offset to its geodetic anchor, take great-circle
distance `d` and initial bearing `b` (degrees, converted to radians) between
the absolute coordinates, and return
`(d·sin b, d·cos b, Δaltitude)`. -/
def displacement_spec (G : GeoPrimitives) (fr toP : PoseRec) : Vec3 :=
  let absoluteFrom := G.addMetersToLngLat
    ⟨fr.longitude.getD 0, fr.latitude.getD 0, fr.altitude.getD 0⟩
    ⟨fr.x.getD 0, fr.y.getD 0, fr.z.getD 0⟩
  let absoluteTo := G.addMetersToLngLat
    ⟨toP.longitude.getD 0, toP.latitude.getD 0, toP.altitude.getD 0⟩
    ⟨toP.x.getD 0, toP.y.getD 0, toP.z.getD 0⟩
  let d := G.distanceMeters absoluteFrom absoluteTo
  let b := degreesToRadians (G.bearingDeg absoluteFrom absoluteTo)
  ⟨d * Real.sin b, d * Real.cos b, absoluteTo.z - absoluteFrom.z⟩

/-- A pose record anchored at longitude 0, latitude 0 with the given
altitude, no meter offset, zero orientation. -/
def pz (alt : ℝ) : PoseRec := ⟨none, none, none, some 0, some 0, some alt, 0, 0, 0⟩

/-- A pose frame wrapping `pz alt`. -/
def pzf (alt : ℝ) : PoseFrame := ⟨pz alt⟩

/-- A pose with a nonzero local meter offset `x = 1` at the zero anchor. -/
def poseX1 : PoseRec := ⟨some 1, none, none, some 0, some 0, some 0, 0, 0, 0⟩

/-- Pose A of the round-trip scenario: anchor (0°E, 0°N). -/
def pA : PoseRec := pz 0

/-- Pose B of the round-trip scenario: anchor (90°E, 45°N). -/
def pB : PoseRec := ⟨none, none, none, some 90, some 45, some 0, 0, 0, 0⟩

/-- Great-circle distance between the two anchors of the round-trip
scenario. -/
def dAB : ℝ := haversineDistance ⟨0, 0, 0⟩ ⟨90, 45, 0⟩

/-- Great-circle distance of the reverse leg of the round-trip scenario. -/
def dBA : ℝ := haversineDistance ⟨90, 45, 0⟩ ⟨0, 0, 0⟩

/-- Target object of the frame-alignment scenario: alive on frames 2 and 3
only. -/
def tgtC1 : ObjectRecord := ⟨7, 0, 0, 0, 2, 4⟩

/-- The object's per-frame record in the frame-alignment scenario, with the
given `x` offset. -/
def obC1 (xv : ℝ) : ObjectRecord := ⟨7, xv, 0, 0, 2, 4⟩

/-- Object frames of the frame-alignment scenario: the object appears at
frames 2 and 3 with offsets x = 5 and x = 7. -/
def framesC1 : FramesStore := .arr [[], [], [obC1 5], [obC1 7]]

/-- Pose frames of the frame-alignment scenario: one shared anchor, altitudes
0, 1, 2, 3 so each frame's pose is distinguishable in the output. -/
def posesC1 : List PoseFrame := [pzf 0, pzf 1, pzf 2, pzf 3]

/-- Target object for the lifetime-clipping witness. -/
def tgtC6 : ObjectRecord := ⟨9, 1, 2, 3, 0, 1⟩

/-- Object frames for the lifetime-clipping witness. -/
def framesC6 : FramesStore := .arr [[tgtC6]]

/-- Target object for the missing-object witness: alive on frames 0 and 1. -/
def tgtC7 : ObjectRecord := ⟨3, 0, 0, 0, 0, 2⟩

/-- Object frames for the missing-object witness: present at frame 0, absent
from frame 1's (empty) object list. -/
def framesC7 : FramesStore := .arr [[⟨3, 1, 1, 1, 0, 2⟩], []]

/-- Object record for the frame-storage-uniformity witness. -/
def objW : ObjectRecord := ⟨1, 4, 5, 6, 0, 1⟩

/-! ### Algebraic helper lemmas -/

theorem mat3Apply_id3 (v : Vec3) : mat3Apply id3 v = v := by
  simp [mat3Apply, id3]

theorem mat3Apply_zero (M : Mat3) : mat3Apply M ⟨0, 0, 0⟩ = ⟨0, 0, 0⟩ := by
  simp [mat3Apply]

theorem mat3Apply_vadd (M : Mat3) (u v : Vec3) :
    mat3Apply M (vadd u v) = vadd (mat3Apply M u) (mat3Apply M v) := by
  apply Vec3.ext <;> simp [mat3Apply, vadd] <;> ring

theorem mat3Apply_vneg (M : Mat3) (v : Vec3) :
    mat3Apply M (vneg v) = vneg (mat3Apply M v) := by
  apply Vec3.ext <;> simp [mat3Apply, vneg] <;> ring

theorem mat3Apply_mul (M N : Mat3) (v : Vec3) :
    mat3Apply (mat3Mul M N) v = mat3Apply M (mat3Apply N v) := by
  apply Vec3.ext <;> simp [mat3Apply, mat3Mul] <;> ring

theorem mat3Mul_assoc (A B C : Mat3) :
    mat3Mul (mat3Mul A B) C = mat3Mul A (mat3Mul B C) := by
  apply Mat3.ext <;> simp [mat3Mul] <;> ring

theorem mat3Mul_id3_left (M : Mat3) : mat3Mul id3 M = M := by
  apply Mat3.ext <;> simp [mat3Mul, id3]

theorem mat3Mul_id3_right (M : Mat3) : mat3Mul M id3 = M := by
  apply Mat3.ext <;> simp [mat3Mul, id3]

theorem vadd_zero_left (v : Vec3) : vadd ⟨0, 0, 0⟩ v = v := by
  simp [vadd]

theorem vadd_zero_right (v : Vec3) : vadd v ⟨0, 0, 0⟩ = v := by
  simp [vadd]

theorem vneg_zero : vneg ⟨0, 0, 0⟩ = (⟨0, 0, 0⟩ : Vec3) := by
  simp [vneg]

theorem vneg_vadd (u v : Vec3) : vneg (vadd u v) = vadd (vneg u) (vneg v) := by
  apply Vec3.ext <;> simp [vneg, vadd] <;> ring

theorem det3_mul (A B : Mat3) : det3 (mat3Mul A B) = det3 A * det3 B := by
  simp [det3, mat3Mul]; ring

theorem det3_rotZ (w : ℝ) : det3 (rotZ w) = 1 := by
  simp [det3, rotZ]
  linear_combination Real.sin_sq_add_cos_sq w

theorem det3_rotY (p : ℝ) : det3 (rotY p) = 1 := by
  simp [det3, rotY]
  linear_combination Real.sin_sq_add_cos_sq p

theorem det3_rotX (r : ℝ) : det3 (rotX r) = 1 := by
  simp [det3, rotX]
  linear_combination Real.sin_sq_add_cos_sq r

theorem rotZYX_eq (r p w : ℝ) :
    rotZYX r p w = mat3Mul (rotZ w) (mat3Mul (rotY p) (rotX r)) := by
  apply Mat3.ext <;> simp [rotZYX, rotZ, rotY, rotX, mat3Mul] <;> ring

theorem det3_rotZYX (r p w : ℝ) : det3 (rotZYX r p w) = 1 := by
  rw [rotZYX_eq, det3_mul, det3_mul, det3_rotZ, det3_rotY, det3_rotX]
  ring

theorem mat3_mul_inv_of_det_one (M : Mat3) (h : det3 M = 1) :
    mat3Mul M (mat3Inv M) = id3 := by
  have h' : M.a00 * (M.a11 * M.a22 - M.a12 * M.a21)
      - M.a01 * (M.a10 * M.a22 - M.a12 * M.a20)
      + M.a02 * (M.a10 * M.a21 - M.a11 * M.a20) = 1 := by
    simpa [det3] using h
  apply Mat3.ext <;>
    simp only [mat3Mul, mat3Inv, id3, h, div_one] <;>
    first
      | ring1
      | linear_combination h'

theorem mat3_inv_mul_of_det_one (M : Mat3) (h : det3 M = 1) :
    mat3Mul (mat3Inv M) M = id3 := by
  have h' : M.a00 * (M.a11 * M.a22 - M.a12 * M.a21)
      - M.a01 * (M.a10 * M.a22 - M.a12 * M.a20)
      + M.a02 * (M.a10 * M.a21 - M.a11 * M.a20) = 1 := by
    simpa [det3] using h
  apply Mat3.ext <;>
    simp only [mat3Mul, mat3Inv, id3, h, div_one] <;>
    first
      | ring1
      | linear_combination h'

theorem rot_mul_inv (r p w : ℝ) :
    mat3Mul (rotZYX r p w) (mat3Inv (rotZYX r p w)) = id3 :=
  mat3_mul_inv_of_det_one _ (det3_rotZYX r p w)

theorem rot_inv_mul (r p w : ℝ) :
    mat3Mul (mat3Inv (rotZYX r p w)) (rotZYX r p w) = id3 :=
  mat3_inv_mul_of_det_one _ (det3_rotZYX r p w)

theorem mat3Inv_id3 : mat3Inv id3 = id3 := by
  apply Mat3.ext <;> simp [mat3Inv, id3, det3]

theorem mat4Invert_id3 (t : Vec3) :
    mat4Invert ⟨id3, t⟩ = ⟨id3, vneg t⟩ := by
  simp [mat4Invert, mat3Inv_id3, mat3Apply_id3]

theorem transformVector_id3 (t v : Vec3) :
    transformVector ⟨id3, t⟩ v = ⟨v.x + t.x, v.y + t.y, v.z + t.z⟩ := by
  simp [transformVector, vadd, mat3Apply_id3]

theorem transformVector_mat4Mul (M N : Mat4) (v : Vec3) :
    transformVector (mat4Mul M N) v = transformVector M (transformVector N v) := by
  apply Vec3.ext <;>
    simp [transformVector, mat4Mul, vadd, mat3Apply, mat3Mul] <;> ring

theorem rotZYX_zero : rotZYX 0 0 0 = id3 := by
  apply Mat3.ext <;> simp [rotZYX, id3]

/-! ### Geodesy evaluation lemmas -/

theorem rad_deg (r : ℝ) : degreesToRadians (radiansToDegrees r) = r := by
  unfold degreesToRadians radiansToDegrees
  field_simp

theorem atan2_zero_pos (x : ℝ) (hx : 0 < x) : atan2 0 x = 0 := by
  simp [atan2, hx]

theorem atan2_zero_zero : atan2 0 0 = 0 := by
  norm_num [atan2]

theorem atan2_neg_one_zero : atan2 (-1) 0 = -(π / 2) := by
  norm_num [atan2]

theorem atan2_same_pos (x : ℝ) (hx : 0 < x) : atan2 x x = π / 4 := by
  simp [atan2, hx, div_self (ne_of_gt hx), Real.arctan_one]

theorem atan2_pos_of (y x : ℝ) (hy : 0 < y) (hx : 0 ≤ x) : 0 < atan2 y x := by
  rcases lt_or_eq_of_le hx with hx' | hx'
  · have : 0 < Real.arctan (y / x) := by
      rw [← Real.arctan_zero]
      exact Real.arctan_strictMono (div_pos hy hx')
    simpa [atan2, hx'] using this
  · have hx0 : x = 0 := hx'.symm
    simp only [atan2, hx0, lt_irrefl, if_false, if_neg (lt_irrefl (0 : ℝ)), hy, if_pos]
    positivity

theorem haversine_self_anchor (c1 c2 : Vec3) (hx : c1.x = c2.x) (hy : c1.y = c2.y) :
    haversineDistance c1 c2 = 0 := by
  simp only [haversineDistance, hx, hy, sub_self]
  norm_num [degreesToRadians, Real.sqrt_one, atan2_zero_pos]

theorem azimuth_same_anchor (c1 c2 : Vec3) (hx : c1.x = c2.x) (hy : c1.y = c2.y) :
    forwardAzimuthDeg c1 c2 = 0 := by
  simp only [forwardAzimuthDeg, hx, hy, sub_self, Real.sin_zero, Real.cos_zero,
    zero_mul, mul_one]
  rw [mul_comm (Real.cos (degreesToRadians c2.y)) (Real.sin (degreesToRadians c2.y)),
    sub_self]
  simp [radiansToDegrees, atan2_zero_zero]

theorem addMetersLinear_zero (c : Vec3) : addMetersLinear c ⟨0, 0, 0⟩ = c := by
  apply Vec3.ext <;> simp [addMetersLinear]

theorem geoVector_self (p : PoseRec) :
    getGeospatialVector GturfModel p p = ⟨0, 0, 0⟩ := by
  simp only [getGeospatialVector, GturfModel]
  rw [haversine_self_anchor _ _ rfl rfl]
  simp

theorem geoVector_pz (a b : ℝ) :
    getGeospatialVector GturfModel (pz a) (pz b) = ⟨0, 0, b - a⟩ := by
  simp only [getGeospatialVector, GturfModel, pz, Option.getD_some, Option.getD_none,
    addMetersLinear_zero]
  rw [haversine_self_anchor ⟨0, 0, a⟩ ⟨0, 0, b⟩ rfl rfl]
  simp

theorem geoTransform_rpy_zero (G : GeoPrimitives) (p q : PoseRec)
    (hp1 : p.roll = 0) (hp2 : p.pitch = 0) (hp3 : p.yaw = 0)
    (hq1 : q.roll = 0) (hq2 : q.pitch = 0) (hq3 : q.yaw = 0) :
    getGeospatialToPoseTransform G p q = ⟨id3, vneg (getGeospatialVector G p q)⟩ := by
  simp only [getGeospatialToPoseTransform, getTransformationMatrixFromPose,
    poseTransformationMatrix, hp1, hp2, hp3, hq1, hq2, hq3, rotZYX_zero]
  rw [mat4Invert_id3]
  simp [mat4Mul, mat3Mul_id3_left, mat3Apply_zero, vadd_zero_left]

theorem geoTransform_pz (a b : ℝ) :
    getGeospatialToPoseTransform GturfModel (pz a) (pz b) = ⟨id3, ⟨0, 0, a - b⟩⟩ := by
  rw [geoTransform_rpy_zero GturfModel (pz a) (pz b) rfl rfl rfl rfl rfl rfl,
    geoVector_pz]
  simp [vneg]

/-! ### Evaluation of the 0°/0° to 90°E/45°N round-trip scenario -/

theorem rad_zero : degreesToRadians 0 = 0 := by
  simp [degreesToRadians]

theorem rad_ninety : degreesToRadians 90 = π / 2 := by
  unfold degreesToRadians; ring

theorem rad_fortyfive : degreesToRadians 45 = π / 4 := by
  unfold degreesToRadians; ring

theorem azimuth_AB :
    forwardAzimuthDeg ⟨0, 0, 0⟩ ⟨90, 45, 0⟩ = radiansToDegrees (π / 4) := by
  have h2 : (0 : ℝ) < Real.sqrt 2 / 2 := by positivity
  simp only [forwardAzimuthDeg, rad_zero, rad_ninety, rad_fortyfive, sub_zero,
    Real.sin_pi_div_two, Real.cos_pi_div_four, Real.sin_pi_div_four, Real.cos_zero,
    Real.sin_zero, one_mul, zero_mul, mul_one]
  rw [atan2_same_pos _ h2]

theorem azimuth_BA :
    forwardAzimuthDeg ⟨90, 45, 0⟩ ⟨0, 0, 0⟩ = radiansToDegrees (-(π / 2)) := by
  simp only [forwardAzimuthDeg, rad_zero, rad_ninety, rad_fortyfive, zero_sub,
    Real.sin_neg, Real.cos_neg, Real.sin_pi_div_two, Real.cos_pi_div_two,
    Real.sin_zero, Real.cos_zero, mul_one, mul_zero, zero_mul, sub_zero, zero_sub,
    neg_zero]
  rw [atan2_neg_one_zero]

theorem haversine_pos (c1 c2 : Vec3)
    (ha : 0 < Real.sin (degreesToRadians (c2.y - c1.y) / 2) ^ 2 +
      Real.sin (degreesToRadians (c2.x - c1.x) / 2) ^ 2 *
        Real.cos (degreesToRadians c1.y) * Real.cos (degreesToRadians c2.y)) :
    0 < haversineDistance c1 c2 := by
  simp only [haversineDistance]
  have h1 : 0 < atan2
      (Real.sqrt (Real.sin (degreesToRadians (c2.y - c1.y) / 2) ^ 2 +
        Real.sin (degreesToRadians (c2.x - c1.x) / 2) ^ 2 *
          Real.cos (degreesToRadians c1.y) * Real.cos (degreesToRadians c2.y)))
      (Real.sqrt (1 - (Real.sin (degreesToRadians (c2.y - c1.y) / 2) ^ 2 +
        Real.sin (degreesToRadians (c2.x - c1.x) / 2) ^ 2 *
          Real.cos (degreesToRadians c1.y) * Real.cos (degreesToRadians c2.y)))) :=
    atan2_pos_of _ _ (Real.sqrt_pos.mpr ha) (Real.sqrt_nonneg _)
  have h2 : (0 : ℝ) < earthRadiusMeters := by norm_num [earthRadiusMeters]
  nlinarith [h1, h2]

theorem distAB_pos : 0 < dAB := by
  unfold dAB
  apply haversine_pos
  have h : (π : ℝ) / 2 / 2 = π / 4 := by ring
  simp only [sub_zero, rad_zero, rad_ninety, rad_fortyfive, Real.cos_zero, mul_one, h,
    Real.sin_pi_div_four, Real.cos_pi_div_four]
  positivity

theorem geoVector_pA_pB :
    getGeospatialVector GturfModel pA pB =
      ⟨dAB * (Real.sqrt 2 / 2), dAB * (Real.sqrt 2 / 2), 0⟩ := by
  simp only [getGeospatialVector, GturfModel, pA, pB, pz, Option.getD_some,
    Option.getD_none, addMetersLinear_zero, azimuth_AB, rad_deg]
  rw [Real.sin_pi_div_four, Real.cos_pi_div_four]
  norm_num [dAB]

theorem geoVector_pB_pA :
    getGeospatialVector GturfModel pB pA = ⟨-dBA, 0, 0⟩ := by
  simp only [getGeospatialVector, GturfModel, pA, pB, pz, Option.getD_some,
    Option.getD_none, addMetersLinear_zero, azimuth_BA, rad_deg]
  rw [Real.sin_neg, Real.cos_neg, Real.sin_pi_div_two, Real.cos_pi_div_two]
  norm_num [dBA]

/-! ### List-machinery lemmas -/

theorem collectM_length {α β : Type} (f : α → Option β) :
    ∀ (l : List α) (bs : List β), collectM f l = some bs → bs.length = l.length := by
  intro l
  induction l with
  | nil =>
    intro bs h
    simp only [collectM, Option.some.injEq] at h
    simp [← h]
  | cons a as ih =>
    intro bs h
    simp only [collectM] at h
    cases h1 : f a with
    | none => rw [h1] at h; simp at h
    | some b =>
      rw [h1] at h
      cases h2 : collectM f as with
      | none => rw [h2] at h; simp at h
      | some bs' =>
        rw [h2] at h
        simp only [Option.some.injEq] at h
        rw [← h]
        simp [ih bs' h2]

theorem collectM_none_of_mem {α β : Type} (f : α → Option β) (l : List α) (x : α)
    (hmem : x ∈ l) (hx : f x = none) : collectM f l = none := by
  induction l with
  | nil => cases hmem
  | cons a as ih =>
    rcases List.mem_cons.mp hmem with h | h
    · subst h
      simp [collectM, hx]
    · cases h1 : f a <;> simp [collectM, h1, ih h]

theorem objTrajLoop_length (G : GeoPrimitives) (sp : PoseRec)
    (poseFrames : List PoseFrame) (s : Nat) :
    ∀ (motions : List ObjectRecord) (i : Nat) (tr : List Vec3),
      objTrajLoop G sp poseFrames s i motions = some tr → tr.length = motions.length := by
  intro motions
  induction motions with
  | nil =>
    intro i tr h
    simp only [objTrajLoop, Option.some.injEq] at h
    simp [← h]
  | cons step rest ih =>
    intro i tr h
    simp only [objTrajLoop] at h
    cases h1 : poseFrames[s + i]? with
    | none => rw [h1] at h; simp at h
    | some pf =>
      rw [h1] at h
      cases h2 : objTrajLoop G sp poseFrames s (i + 1) rest with
      | none => rw [h2] at h; simp at h
      | some ps =>
        rw [h2] at h
        simp only [Option.some.injEq] at h
        rw [← h]
        simp [ih (i + 1) ps h2]

theorem geoTransform_eq (G : GeoPrimitives) (q r : PoseRec) :
    getGeospatialToPoseTransform G q r =
      ⟨mat3Mul (mat3Inv (rotZYX r.roll r.pitch r.yaw)) (rotZYX q.roll q.pitch q.yaw),
       vneg (mat3Apply (mat3Inv (rotZYX r.roll r.pitch r.yaw))
         (getGeospatialVector G q r))⟩ := by
  simp only [getGeospatialToPoseTransform, getTransformationMatrixFromPose,
    poseTransformationMatrix]
  simp [mat4Mul, mat4Invert, mat3Apply_zero, vadd_zero_left]

theorem rt_linear (ra pa ya rb pb yb : ℝ) :
    mat3Mul (mat3Mul (mat3Inv (rotZYX ra pa ya)) (rotZYX rb pb yb))
      (mat3Mul (mat3Inv (rotZYX rb pb yb)) (rotZYX ra pa ya)) = id3 := by
  rw [mat3Mul_assoc, ← mat3Mul_assoc (rotZYX rb pb yb), rot_mul_inv,
    mat3Mul_id3_left, rot_inv_mul]

theorem rt_translation (ra pa ya rb pb yb : ℝ) (v1 v2 : Vec3)
    (hanti : vadd v1 v2 = ⟨0, 0, 0⟩) :
    vadd (mat3Apply (mat3Mul (mat3Inv (rotZYX ra pa ya)) (rotZYX rb pb yb))
      (vneg (mat3Apply (mat3Inv (rotZYX rb pb yb)) v1)))
      (vneg (mat3Apply (mat3Inv (rotZYX ra pa ya)) v2)) = ⟨0, 0, 0⟩ := by
  rw [mat3Apply_vneg, ← mat3Apply_mul, mat3Mul_assoc, rot_mul_inv, mat3Mul_id3_right,
    ← vneg_vadd, ← mat3Apply_vadd, hanti, mat3Apply_zero, vneg_zero]

/-! ### Claim C1 -/

/-- Claim C1 (code bug): in the scenario where the target object's lifetime
starts after `startFrame` (`firstFrame = 2 > startFrame = 0`, poses share one
anchor with altitudes 0, 1, 2, 3, object offsets x = 5 at frame 2 and x = 7 at
frame 3), `getObjectTrajectory` pairs the object offset recorded at frame
`2 + i` with the platform pose of frame `0 + i`, producing
`[(5,0,0), (7,0,1)]`, and in particular does not produce the result of
transforming each offset with the pose of its own absolute frame
(`[(5,0,2), (7,0,3)]`), contradicting the claim and the source's own comment
that "objects in curr frame are meters offset based on currVehiclePose". -/
theorem C1_code_bug_offset_pose_frame_mismatch :
    getObjectTrajectory GturfModel tgtC1 framesC1 posesC1 0 4 =
      some [⟨5, 0, 0⟩, ⟨7, 0, 1⟩] ∧
    getObjectTrajectory GturfModel tgtC1 framesC1 posesC1 0 4 ≠
      some [transformVector (getGeospatialToPoseTransform GturfModel (pz 2) (pz 0)) ⟨5, 0, 0⟩,
        transformVector (getGeospatialToPoseTransform GturfModel (pz 3) (pz 0)) ⟨7, 0, 0⟩] := by
  have h1 : getObjectTrajectory GturfModel tgtC1 framesC1 posesC1 0 4 =
      objTrajLoop GturfModel (pz 0) posesC1 0 0 [obC1 5, obC1 7] := rfl
  have e0 : posesC1[0 + 0]? = some (pzf 0) := rfl
  have e1 : posesC1[0 + 1]? = some (pzf 1) := rfl
  have heval : getObjectTrajectory GturfModel tgtC1 framesC1 posesC1 0 4 =
      some [⟨5, 0, 0⟩, ⟨7, 0, 1⟩] := by
    rw [h1]
    simp only [objTrajLoop, e0, e1, pzf, obC1, geoTransform_pz, transformVector_id3]
    norm_num
  have hexp1 : transformVector (getGeospatialToPoseTransform GturfModel (pz 2) (pz 0))
      ⟨5, 0, 0⟩ = ⟨5, 0, 2⟩ := by
    rw [geoTransform_pz, transformVector_id3]
    norm_num
  have hexp2 : transformVector (getGeospatialToPoseTransform GturfModel (pz 3) (pz 0))
      ⟨7, 0, 0⟩ = ⟨7, 0, 3⟩ := by
    rw [geoTransform_pz, transformVector_id3]
    norm_num
  refine ⟨heval, ?_⟩
  rw [heval, hexp1, hexp2]
  intro hcon
  simp only [Option.some.injEq, List.cons.injEq, Vec3.mk.injEq] at hcon
  norm_num at hcon

/-! ### Claim C2 -/

/-- Claim C2 (counterexample): for a valid pose whose local meter offset is
`x = 1`, `getPoseTrajectory(poses, 0, 1)` returns one point, but that point
is `(-1, 0, 0)`, not `(0, 0, 0)`: `transformVector` applies the inverted
reference matrix as a point transform, so the pose's own `(x, y, z)` offset
survives into the result. -/
theorem C2_counterexample_nonzero_position :
    getPoseTrajectory GturfModel [⟨poseX1⟩] 0 1 ≠ some [⟨0, 0, 0⟩] := by
  have heval : getPoseTrajectory GturfModel [⟨poseX1⟩] 0 1 = some [⟨-1, 0, 0⟩] := by
    have h1 : getPoseTrajectory GturfModel [⟨poseX1⟩] 0 1 =
        some [transformVector (mat4Invert (poseMatOfRec poseX1))
          (getGeospatialVector GturfModel poseX1 poseX1)] := rfl
    rw [h1, geoVector_self]
    have h2 : poseMatOfRec poseX1 = ⟨id3, ⟨1, 0, 0⟩⟩ := by
      simp only [poseMatOfRec, poseTransformationMatrix, poseX1, Option.getD_some,
        Option.getD_none, rotZYX_zero]
    rw [h2, mat4Invert_id3, transformVector_id3]
    norm_num [vneg]
  rw [heval]
  intro hcon
  simp only [Option.some.injEq, List.cons.injEq, Vec3.mk.injEq] at hcon
  norm_num at hcon

/-- Claim C2 (amended): `getPoseTrajectory({poses, startFrame: s, endFrame:
s + 1})` returns exactly one point, and that point is `(0, 0, 0)`, whenever
`poses[s]` is a valid pose whose local meter offset `(x, y, z)` defaults to
zero; for a nonzero offset the single returned point is the offset mapped
through the inverted reference transform instead. -/
theorem C2_amended_single_origin_point (poses : List PoseFrame) (s : Nat)
    (pf : PoseFrame) (h : poses[s]? = some pf)
    (hx : pf.pose.x.getD 0 = 0) (hy : pf.pose.y.getD 0 = 0)
    (hz : pf.pose.z.getD 0 = 0) :
    getPoseTrajectory GturfModel poses s (s + 1) = some [⟨0, 0, 0⟩] := by
  have hs : s < poses.length := by
    have := List.getElem?_eq_some.mp h
    exact this.1
  have hmin : min (s + 1) poses.length = s + 1 := min_eq_left (Nat.succ_le_of_lt hs)
  have hone : s + 1 - s = 1 := by omega
  have hrange : List.range' s 1 = [s] := rfl
  simp only [getPoseTrajectory, hmin, hone, hrange, collectM, h, Option.map_some']
  simp only [List.map_cons, List.map_nil, geoVector_self]
  have hmat : poseMatOfRec pf.pose =
      ⟨rotZYX pf.pose.roll pf.pose.pitch pf.pose.yaw, ⟨0, 0, 0⟩⟩ := by
    simp only [poseMatOfRec, poseTransformationMatrix, hx, hy, hz]
  rw [hmat]
  simp [mat4Invert, transformVector, mat3Apply_zero, vneg_zero, vadd_zero_left]

/-- Witness for the amended C2 at a concrete zero-offset pose. -/
theorem C2_amended_witness :
    (([pzf 0] : List PoseFrame)[0]? = some (pzf 0)) ∧
    ((pzf 0).pose.x.getD 0 = 0) ∧ ((pzf 0).pose.y.getD 0 = 0) ∧
    ((pzf 0).pose.z.getD 0 = 0) ∧
    getPoseTrajectory GturfModel [pzf 0] 0 1 = some [⟨0, 0, 0⟩] :=
  ⟨rfl, rfl, rfl, rfl,
    C2_amended_single_origin_point [pzf 0] 0 (pzf 0) rfl rfl rfl rfl⟩

/-! ### Claim C3 -/

/-- Claim C3 (counterexample): with pose A at anchor (0°E, 0°N) and pose B at
anchor (90°E, 45°N), both with zero orientation and zero offset, applying
`getGeospatialToPoseTransform(A, B)` and then
`getGeospatialToPoseTransform(B, A)` to the origin does not return the
origin, even over exact real arithmetic: great-circle initial bearings are
not antisymmetric, so the two geospatial vectors do not cancel. -/
theorem C3_counterexample_roundtrip_not_exact :
    transformVector (getGeospatialToPoseTransform GturfModel pB pA)
      (transformVector (getGeospatialToPoseTransform GturfModel pA pB) ⟨0, 0, 0⟩) ≠
      (⟨0, 0, 0⟩ : Vec3) := by
  rw [geoTransform_rpy_zero GturfModel pA pB rfl rfl rfl rfl rfl rfl,
    geoTransform_rpy_zero GturfModel pB pA rfl rfl rfl rfl rfl rfl,
    geoVector_pA_pB, geoVector_pB_pA]
  simp only [transformVector_id3]
  intro hcon
  have hy := congrArg Vec3.y hcon
  simp only [vneg] at hy
  norm_num at hy
  have h2 : (0 : ℝ) < Real.sqrt 2 := by positivity
  nlinarith [mul_pos distAB_pos h2, hy]

/-- Claim C3 (amended): the round trip is the identity exactly when the
geospatial displacement is antisymmetric between the two poses
(`v(A,B) + v(B,A) = 0`), which holds only approximately for great-circle
bearings in general; under that hypothesis the transforms compose to the
identity for all orientations. -/
theorem C3_amended_roundtrip_of_antisymmetry (G : GeoPrimitives) (A B : PoseRec)
    (p : Vec3)
    (hanti : vadd (getGeospatialVector G A B) (getGeospatialVector G B A) =
      ⟨0, 0, 0⟩) :
    transformVector (getGeospatialToPoseTransform G B A)
      (transformVector (getGeospatialToPoseTransform G A B) p) = p := by
  rw [← transformVector_mat4Mul, geoTransform_eq G A B, geoTransform_eq G B A]
  simp only [mat4Mul]
  rw [rt_linear, rt_translation A.roll A.pitch A.yaw B.roll B.pitch B.yaw
    (getGeospatialVector G A B) (getGeospatialVector G B A) hanti]
  rw [transformVector_id3]
  apply Vec3.ext <;> simp

/-- Witness for the amended C3: at equal poses the geospatial vectors cancel
and the round trip fixes a sample point. -/
theorem C3_amended_witness :
    (vadd (getGeospatialVector GturfModel pA pA)
      (getGeospatialVector GturfModel pA pA) = ⟨0, 0, 0⟩) ∧
    transformVector (getGeospatialToPoseTransform GturfModel pA pA)
      (transformVector (getGeospatialToPoseTransform GturfModel pA pA) ⟨1, 2, 3⟩) =
      ⟨1, 2, 3⟩ := by
  have h : vadd (getGeospatialVector GturfModel pA pA)
      (getGeospatialVector GturfModel pA pA) = ⟨0, 0, 0⟩ := by
    rw [geoVector_self]
    simp [vadd]
  exact ⟨h, C3_amended_roundtrip_of_antisymmetry GturfModel pA pA ⟨1, 2, 3⟩ h⟩

/-! ### Claim C4 -/

/-- Claim C4 (counterexample): for poses A (0°E, 0°N) and B (90°E, 45°N), the
translational part of `getGeospatialToPoseTransform(A, B)` is not the
geospatial vector computed in the direction B → A expressed in B's local
axes: it is the negated A → B vector, and the two differ exactly because
great-circle initial bearings are not antisymmetric. -/
theorem C4_counterexample_translation_not_reverse_vector :
    (getGeospatialToPoseTransform GturfModel pA pB).translation ≠
      mat3Apply (mat3Inv (rotZYX pB.roll pB.pitch pB.yaw))
        (getGeospatialVector GturfModel pB pA) := by
  rw [geoTransform_rpy_zero GturfModel pA pB rfl rfl rfl rfl rfl rfl,
    geoVector_pA_pB, geoVector_pB_pA]
  intro hcon
  have hy := congrArg Vec3.y hcon
  simp only [pB, rotZYX_zero, mat3Inv_id3, mat3Apply_id3, vneg] at hy
  norm_num at hy
  have h2 : (0 : ℝ) < Real.sqrt 2 := by positivity
  nlinarith [mul_pos distAB_pos h2, hy]

/-- Claim C4 (amended): the translational part of
`getGeospatialToPoseTransform(from, to)` is the negation of the geospatial
vector from `from` to `to`, expressed in `to`'s local axes (equal to the
to → from vector only up to great-circle bearing asymmetry); and applying
the matrix to a point in `from`'s frame yields that point's coordinates in
`to`'s frame per the spec's own construction (a zero-position pose with
`from`'s orientation into an offset pose with `to`'s orientation). -/
theorem C4_amended_translation_and_application (G : GeoPrimitives)
    (fr toP : PoseRec) (p : Vec3) :
    (getGeospatialToPoseTransform G fr toP).translation =
      mat3Apply (mat3Inv (rotZYX toP.roll toP.pitch toP.yaw))
        (vneg (getGeospatialVector G fr toP)) ∧
    transformVector (getGeospatialToPoseTransform G fr toP) p =
      transformVector
        (mat4Invert (poseTransformationMatrix (getGeospatialVector G fr toP).x
          (getGeospatialVector G fr toP).y (getGeospatialVector G fr toP).z
          toP.roll toP.pitch toP.yaw))
        (transformVector (poseTransformationMatrix 0 0 0 fr.roll fr.pitch fr.yaw)
          p) := by
  constructor
  · rw [geoTransform_eq, mat3Apply_vneg]
  · exact transformVector_mat4Mul _ _ p

/-! ### Claim C5 -/

/-- Claim C5: `getGeospatialVector(from, to)` returns exactly the triple
`(d·sin b, d·cos b, Δaltitude)` of the spec's GeodesicDisplacement contract,
where `d` and `b` are the library distance and initial bearing between the
absolute coordinates (anchor plus meter offset, fields defaulting to 0) and
`Δaltitude` subtracts the absolute altitudes. -/
theorem C5_geospatial_vector_formula (G : GeoPrimitives) (fr toP : PoseRec) :
    getGeospatialVector G fr toP = displacement_spec G fr toP := rfl

/-! ### Claim C6 -/

/-- Claim C6: whenever `getObjectTrajectory` returns normally, the trajectory
length is the clipped range `min(endFrame, lastFrame) - max(startFrame,
firstFrame)` (truncated at zero), and the object record behind the `i`-th
point is the one resolved at absolute frame `max(startFrame, firstFrame) + i`,
which always lies inside `[firstFrame, lastFrame)`. -/
theorem C6_lifetime_clipping_length (G : GeoPrimitives)
    (targetObject : ObjectRecord) (objectFrames : FramesStore)
    (poseFrames : List PoseFrame) (startFrame endFrame : Nat) (tr : List Vec3)
    (h : getObjectTrajectory G targetObject objectFrames poseFrames startFrame
      endFrame = some tr) :
    tr.length =
      min endFrame targetObject.lastFrame - max startFrame targetObject.firstFrame ∧
    ∀ i < tr.length,
      targetObject.firstFrame ≤ max startFrame targetObject.firstFrame + i ∧
      max startFrame targetObject.firstFrame + i < targetObject.lastFrame := by
  unfold getObjectTrajectory at h
  cases h1 : poseFrames[startFrame]? with
  | none => rw [h1] at h; simp at h
  | some startEntry =>
    simp only [h1] at h
    cases h2 : getObjectMotions targetObject objectFrames startFrame
        (min endFrame targetObject.lastFrame) with
    | none => rw [h2] at h; simp at h
    | some motions =>
      simp only [h2] at h
      have hlen1 : tr.length = motions.length :=
        objTrajLoop_length _ _ _ _ motions 0 tr h
      unfold getObjectMotions at h2
      have hlen2 := collectM_length _ _ _ h2
      rw [List.length_range'] at hlen2
      constructor
      · omega
      · intro i hi
        omega

/-- Witness for C6 on a one-frame scenario. -/
theorem C6_witness :
    getObjectTrajectory GturfModel tgtC6 framesC6 [pzf 0] 0 1 = some [⟨1, 2, 3⟩] ∧
    ([⟨1, 2, 3⟩] : List Vec3).length =
      min 1 tgtC6.lastFrame - max 0 tgtC6.firstFrame ∧
    ∀ i < ([⟨1, 2, 3⟩] : List Vec3).length,
      tgtC6.firstFrame ≤ max 0 tgtC6.firstFrame + i ∧
      max 0 tgtC6.firstFrame + i < tgtC6.lastFrame := by
  have h1 : getObjectTrajectory GturfModel tgtC6 framesC6 [pzf 0] 0 1 =
      objTrajLoop GturfModel (pz 0) [pzf 0] 0 0 [tgtC6] := rfl
  have e0 : ([pzf 0] : List PoseFrame)[0 + 0]? = some (pzf 0) := rfl
  have heval : getObjectTrajectory GturfModel tgtC6 framesC6 [pzf 0] 0 1 =
      some [⟨1, 2, 3⟩] := by
    rw [h1]
    simp only [objTrajLoop, e0, pzf, tgtC6]
    norm_num [geoTransform_pz, transformVector_id3]
  have hmain := C6_lifetime_clipping_length GturfModel tgtC6 framesC6 [pzf 0] 0 1
    [⟨1, 2, 3⟩] heval
  exact ⟨heval, hmain.1, hmain.2⟩

/-! ### Claim C7 -/

/-- Claim C7: if some absolute frame `k` in the intersected range
`[max(startFrame, firstFrame), min(endFrame, lastFrame))` has an object list
that contains no record with the target's id, `getObjectTrajectory` does not
return normally (the lookup's empty result faults before any trajectory is
produced), and in particular never returns a shorter trajectory. -/
theorem C7_missing_object_faults (G : GeoPrimitives)
    (targetObject : ObjectRecord) (objectFrames : FramesStore)
    (poseFrames : List PoseFrame) (startFrame endFrame k : Nat)
    (objs : List ObjectRecord)
    (hk1 : max startFrame targetObject.firstFrame ≤ k)
    (hk2 : k < min endFrame targetObject.lastFrame)
    (hobjs : getFrameObjects objectFrames k = some objs)
    (hmiss : ∀ o ∈ objs, o.id ≠ targetObject.id) :
    getObjectTrajectory G targetObject objectFrames poseFrames startFrame
      endFrame = none := by
  have hfind : objs.find? (fun o => o.id == targetObject.id) = none := by
    rw [List.find?_eq_none]
    intro o ho
    simpa using hmiss o ho
  have hstep : (getFrameObjects objectFrames k).bind
      (fun objs => objs.find? (fun o => o.id == targetObject.id)) = none := by
    rw [hobjs]
    simpa using hfind
  have hmem : k ∈ List.range' (max targetObject.firstFrame startFrame)
      (min targetObject.lastFrame (min endFrame targetObject.lastFrame) -
        max targetObject.firstFrame startFrame) := by
    rw [List.mem_range'_1]
    omega
  have hmot : getObjectMotions targetObject objectFrames startFrame
      (min endFrame targetObject.lastFrame) = none := by
    unfold getObjectMotions
    exact collectM_none_of_mem _ _ k hmem hstep
  unfold getObjectTrajectory
  cases hpose : poseFrames[startFrame]? with
  | none => rfl
  | some startEntry => simp only [hmot]

/-- Witness for C7: the object is absent from frame 1's empty object list
inside its lifetime, and the call faults. -/
theorem C7_witness :
    max 0 tgtC7.firstFrame ≤ 1 ∧ 1 < min 2 tgtC7.lastFrame ∧
    getFrameObjects framesC7 1 = some [] ∧
    (∀ o ∈ ([] : List ObjectRecord), o.id ≠ tgtC7.id) ∧
    getObjectTrajectory GturfModel tgtC7 framesC7 [pzf 0, pzf 1] 0 2 = none := by
  refine ⟨by norm_num [tgtC7], by norm_num [tgtC7], rfl, by simp, ?_⟩
  exact C7_missing_object_faults GturfModel tgtC7 framesC7 [pzf 0, pzf 1] 0 2 1 []
    (by norm_num [tgtC7]) (by norm_num [tgtC7]) rfl (by simp)

/-! ### Claim C8 -/

/-- Claim C8: `getFrameObjects` returns identical results on a sequential
array `A` and on any frame-number-keyed map `M` that is extensionally
equivalent to `A` (maps exactly each index `i` of `A` to `A[i]` and has no
other entries). -/
theorem C8_frame_storage_uniformity (A : List (List ObjectRecord))
    (M : List (Nat × List ObjectRecord)) (n : Nat)
    (hequiv : ∀ k, M.lookup k = A[k]?) :
    getFrameObjects (.map M) n = getFrameObjects (.arr A) n :=
  hequiv n

/-- Witness for C8 on a one-frame store. -/
theorem C8_witness :
    (∀ k, ([(0, [objW])] : List (Nat × List ObjectRecord)).lookup k =
      ([[objW]] : List (List ObjectRecord))[k]?) ∧
    getFrameObjects (.map [(0, [objW])]) 0 = getFrameObjects (.arr [[objW]]) 0 := by
  have h : ∀ k, ([(0, [objW])] : List (Nat × List ObjectRecord)).lookup k =
      ([[objW]] : List (List ObjectRecord))[k]? := by
    intro k
    cases k with
    | zero => rfl
    | succ n => rfl
  exact ⟨h, C8_frame_storage_uniformity [[objW]] [(0, [objW])] 0 h⟩

/-! ### Claim C9 -/

/-- Claim C9: clipping is monotone — an `endFrame` beyond the pose array
produces exactly the same trajectory as `endFrame = len(poses)`. -/
theorem C9_monotonic_clipping (G : GeoPrimitives) (poses : List PoseFrame)
    (s e : Nat) (_hs : s < poses.length) (he : poses.length < e) :
    getPoseTrajectory G poses s e = getPoseTrajectory G poses s poses.length := by
  unfold getPoseTrajectory
  rw [min_eq_right (le_of_lt he), min_self]

/-- Witness for C9 on a one-pose array with `endFrame = 2 > 1 = len`. -/
theorem C9_witness :
    0 < ([pzf 0] : List PoseFrame).length ∧ ([pzf 0] : List PoseFrame).length < 2 ∧
    getPoseTrajectory GturfModel [pzf 0] 0 2 =
      getPoseTrajectory GturfModel [pzf 0] 0 ([pzf 0] : List PoseFrame).length := by
  refine ⟨by norm_num, by norm_num, ?_⟩
  exact C9_monotonic_clipping GturfModel [pzf 0] 0 2 (by norm_num) (by norm_num)

/-! ### Claim C10 -/

/-- Claim C10: when `poses[startFrame]` exists but the clipped range
`min(endFrame, len(poses))` does not exceed `startFrame`, the call returns
the empty trajectory without faulting (the reference pose is still read and
inverted; zero points are produced). -/
theorem C10_empty_range_empty_trajectory (G : GeoPrimitives)
    (poses : List PoseFrame) (s e : Nat) (hs : s < poses.length)
    (he : min e poses.length ≤ s) :
    getPoseTrajectory G poses s e = some [] := by
  have h1 : min e poses.length - s = 0 := Nat.sub_eq_zero_of_le he
  have hrange : List.range' s 0 = ([] : List Nat) := rfl
  simp only [getPoseTrajectory, h1, hrange, collectM, List.getElem?_eq_getElem hs]
  simp

/-- Witness for C10 with `endFrame = 0 ≤ startFrame = 0`. -/
theorem C10_witness :
    0 < ([pzf 0] : List PoseFrame).length ∧
    min 0 ([pzf 0] : List PoseFrame).length ≤ 0 ∧
    getPoseTrajectory GturfModel [pzf 0] 0 0 = some [] := by
  refine ⟨by norm_num, by norm_num, ?_⟩
  exact C10_empty_range_empty_trajectory GturfModel [pzf 0] 0 0 (by norm_num)
    (by norm_num)

end

end XvizTrajectory
